import Mathlib

/-!
Shallow embedding of `mood_player.py` (Mood-Based Music Player prototype).

Moods and paths are strings, as in the source.  External effects (webcam
frames, Spotify API calls, the filesystem, `random.choice`) are passed in as
explicit parameters; printed failure messages become recorded reasons.
-/

namespace MoodPlayer

/-- The `MOOD_FOLDERS` dict, mapping canonical moods to local folders
(mood_player.py lines 43-51).  Insertion order preserved. -/
def MOOD_FOLDERS : List (String × String) :=
  [("happy", "music/happy"),
   ("sad", "music/sad"),
   ("angry", "music/angry"),
   ("surprise", "music/surprise"),
   ("neutral", "music/neutral"),
   ("fear", "music/fear"),
   ("disgust", "music/disgust")]

/-- Python `max(iterable, key=key)`: the first element in iteration order
attaining the maximal key (later elements replace the current best only on a
strictly greater key). `none` on an empty iterable (Python raises there). -/
def pyMax (key : String → Nat) : List String → Option String
  | [] => none
  | x :: xs => some (xs.foldl (fun best y => if key y > key best then y else best) x)

/-- The aggregation step of `WebcamMoodDetector.detect_mood`
(mood_player.py lines 123-128):

    if not emotion_votes: return None
    mood = max(set(emotion_votes), key=emotion_votes.count)

`setOrder` models the iteration order of the Python set `set(emotion_votes)`:
an arbitrary enumeration of the distinct votes (hash-dependent, not fixed by
the input).  Theorems constrain it by `setOrder.Perm emotion_votes.dedup`. -/
def aggregate (emotion_votes : List String) (setOrder : List String) : Option String :=
  if emotion_votes.isEmpty then none
  else pyMax (fun m => emotion_votes.count m) setOrder

/-- Outcome of the webcam branch of `main` (mood_player.py lines 249-253):
`continue` (re-prompt) on a falsy mood, otherwise proceed with the mood. -/
inductive WebcamStep
  | reprompt
  | proceed (mood : String)
deriving DecidableEq

/-- The webcam branch of `main`: `if not mood: ... continue` — `None` and the
empty string are falsy in Python. -/
def webcam_step (votes setOrder : List String) : WebcamStep :=
  match aggregate votes setOrder with
  | none => .reprompt
  | some m => if m = "" then .reprompt else .proceed m

/-- `TextMoodDetector.detect_mood` threshold policy (mood_player.py lines
135-144), on the polarity already produced by the external sentiment scorer.
Polarity is modelled as a rational in [-1, 1]. -/
def detect_mood (polarity : ℚ) : String :=
  if polarity > 3/10 then "happy"
  else if polarity < -(3/10) then "sad"
  else "neutral"

/-- Python `str.lower()`: lowercase every character. -/
def pyLower (s : String) : String :=
  String.mk (s.data.map Char.toLower)

/-- Python `str.strip()`: drop leading and trailing whitespace. -/
def pyStrip (s : String) : String :=
  String.mk (((s.data.dropWhile Char.isWhitespace).reverse.dropWhile
      Char.isWhitespace).reverse)

/-- The manual-mood branch of `main` (mood_player.py lines 261-266):
`mood = input(...).strip().lower(); if mood not in MOOD_FOLDERS: ... continue`.
`none` models the rejection/re-prompt path. -/
def resolve_manual (raw : String) : Option String :=
  let mood := pyLower (pyStrip raw)
  if mood ∈ MOOD_FOLDERS.map Prod.fst then some mood else none

/-- Python `PurePath.suffix` of a file name: the part from the last dot on,
provided that dot is neither the first nor the last character; `""` otherwise
(so `"a.mp3"` gives `".mp3"`, `".bashrc"` and `"a."` give `""`). -/
def pySuffix (name : String) : String :=
  let cs := name.data
  match (cs.enum.filterMap (fun p => if p.2 = '.' then some p.1 else none)).getLast? with
  | none => ""
  | some i => if 0 < i ∧ i + 1 < cs.length then String.mk (cs.drop i) else ""

/-- `list_music_files` (mood_player.py lines 72-76): entries of the folder
with a recognized audio extension, as full paths.  The directory listing is
external state, passed in as `dirEntries`: `none` when the folder does not
exist (`p.exists()` false), otherwise the names of the entries. -/
def list_music_files (folder : String) (dirEntries : String → Option (List String)) :
    List String :=
  match dirEntries folder with
  | none => []
  | some names =>
      (names.filter
        (fun n => pyLower (pySuffix n) ∈ ([".mp3", ".wav", ".ogg", ".flac"] : List String))).map
        (fun n => folder ++ "/" ++ n)

/-- Outcome of `LocalMusicPlayer.play_random_for_mood`: which file was played,
or the failure message printed. -/
inductive LocalOutcome
  | played (file : String)
  | noFolder (msg : String)
  | noFiles (msg : String)
deriving DecidableEq

/-- `LocalMusicPlayer.play_random_for_mood` (mood_player.py lines 164-174).
`folder = MOOD_FOLDERS.get(mood)` with the Python falsy check `if not folder`;
`random.choice(files)` is modelled by the external index `pick`, reduced
modulo the number of candidates. -/
def play_random_for_mood (mood : String) (dirEntries : String → Option (List String))
    (pick : Nat) : LocalOutcome :=
  let folder := (MOOD_FOLDERS.lookup mood).getD ""
  if folder = "" then .noFolder ("No folder mapped for mood: " ++ mood)
  else
    let files := list_music_files folder dirEntries
    if files.isEmpty then
      .noFiles ("No music files found in " ++ folder ++ ". Please add mp3/ogg/wav files there.")
    else .played (files.getD (pick % files.length) "")

/-- A Spotify device as returned by `sp.devices()["devices"]`. -/
structure Device where
  id : String
  name : String
deriving DecidableEq

/-- The remote-playback call issued by `SpotifyController.start_playback_by_uri`. -/
structure PlaybackCall where
  device_id : String
  context_uri : String
deriving DecidableEq

/-- `SpotifyController.start_playback_by_uri` (mood_player.py lines 207-214):
raises when the device list is empty, otherwise starts playback with
`device_id = device_list[0]["id"]`.  `devices` is the enumeration result
`devices.get("devices", [])`. -/
def start_playback_by_uri (devices : List Device) (playlist_uri : String) :
    Except String PlaybackCall :=
  match devices with
  | [] => .error "No active Spotify devices found. Start Spotify on a device and try again."
  | d :: _ => .ok ⟨d.id, playlist_uri⟩

/-- Result of `SpotifyController.find_playlist_for_mood` as observed by `main`:
a playlist was found, the search returned no items (`None`), or the call
raised. -/
inductive SearchOutcome
  | found (uri name : String)
  | notFound
  | raised (msg : String)
deriving DecidableEq

/-- Result of `spotify_controller.start_playback_by_uri(uri)` as observed by
`main`: returned normally, or raised (no devices / API error). -/
inductive StartOutcome
  | ok
  | raised (msg : String)
deriving DecidableEq

/-- What ended up playing for one request. -/
inductive Played
  | spotify (uri : String)
  | localFile (file : String)
deriving DecidableEq

/-- Outcome of one playback-routing request: the backend/track that played
(if any) and the failure reasons reported along the way (the error messages
`main` and `play_random_for_mood` print). -/
structure RouteResult where
  played : Option Played
  reasons : List String
deriving DecidableEq

/-- Lift a local-player outcome into a routing outcome. -/
def localToRoute : LocalOutcome → RouteResult
  | .played f => ⟨some (.localFile f), []⟩
  | .noFolder m => ⟨none, [m]⟩
  | .noFiles m => ⟨none, [m]⟩

/-- The Spotify routing branch of `main` (mood_player.py lines 283-299):
try the playlist search; on `None` fall back to local with a no-playlist
reason; on an exception from search or playback-start fall back to local with
the printed error; when remote playback starts, stop — the local player is
not invoked. -/
def route_spotify (mood : String) (search : SearchOutcome) (start : String → StartOutcome)
    (dirEntries : String → Option (List String)) (pick : Nat) : RouteResult :=
  match search with
  | .notFound =>
      let r := localToRoute (play_random_for_mood mood dirEntries pick)
      ⟨r.played, "No Spotify playlist found for mood. Falling back to local playback." :: r.reasons⟩
  | .raised msg =>
      let r := localToRoute (play_random_for_mood mood dirEntries pick)
      ⟨r.played, ("Spotify playback error: " ++ msg) :: r.reasons⟩
  | .found uri _name =>
      match start uri with
      | .ok => ⟨some (.spotify uri), []⟩
      | .raised msg =>
          let r := localToRoute (play_random_for_mood mood dirEntries pick)
          ⟨r.played, ("Spotify playback error: " ++ msg) :: r.reasons⟩

/-- A filesystem state: the set of existing directories and the files
(path, content).  Paths are strings as in the source. -/
structure FS where
  dirs : List String
  files : List (String × String)
deriving DecidableEq

/-- Python `Path(p).exists()`: true when `p` is an existing directory or an
existing file. -/
def pyExists (fs : FS) (p : String) : Bool :=
  fs.dirs.contains p || fs.files.any (fun f => f.1 = p)

/-- Create one directory if missing (a single `mkdir` level). -/
def addDir (fs : FS) (d : String) : FS :=
  if fs.dirs.contains d then fs else { fs with dirs := fs.dirs ++ [d] }

/-- Split a character list on a separator character (as `str.split` with a
one-character separator). -/
def splitOnChar (c : Char) : List Char → List (List Char)
  | [] => [[]]
  | x :: xs =>
    match splitOnChar c xs with
    | [] => if x = c then [[], []] else [[x]]
    | r :: rs => if x = c then [] :: r :: rs else (x :: r) :: rs

/-- Join path components with slashes. -/
def joinSlash : List String → String
  | [] => ""
  | [x] => x
  | x :: xs => x ++ "/" ++ joinSlash xs

/-- The proper ancestor paths of `p`, outermost first
(`"music/happy"` gives `["music"]`). -/
def ancestorPaths (p : String) : List String :=
  let parts := (splitOnChar (Char.ofNat 47) p.data).map String.mk
  (List.range (parts.length - 1)).map (fun i => joinSlash (parts.take (i + 1)))

/-- `Path(p).mkdir(parents=True, exist_ok=True)`: create the missing
ancestors, then the directory itself. -/
def mkdir_parents (fs : FS) (p : String) : FS :=
  (ancestorPaths p ++ [p]).foldl addDir fs

/-- `Path.write_text`: create or overwrite the file at `p`. -/
def write_text (fs : FS) (p text : String) : FS :=
  { fs with files := fs.files.filter (fun f => f.1 ≠ p) ++ [(p, text)] }

/-- The README placeholder text written for a mood folder
(mood_player.py lines 66-68). -/
def readme_text (mood : String) : String :=
  let q := (Char.ofNat 39).toString
  "Place mp3 files for mood " ++ q ++ mood ++ q ++ " in this folder."

/-- One iteration of the `ensure_music_folders` loop: if the path does not
exist, create it (with parents) and write the placeholder README. -/
def ensure_step (fs : FS) (pr : String × String) : FS :=
  if pyExists fs pr.2 then fs
  else write_text (mkdir_parents fs pr.2) (pr.2 ++ "/README.txt") (readme_text pr.1)

/-- `ensure_music_folders` (mood_player.py lines 60-69). -/
def ensure_music_folders (fs : FS) : FS :=
  MOOD_FOLDERS.foldl ensure_step fs

/-- Files appearing on disk between two runs (nothing in the source removes
directories or files). -/
def add_files (fs : FS) (extra : List (String × String)) : FS :=
  { fs with files := fs.files ++ extra }

/-- C1: the tie-break of `aggregate` is not first-encountered-among-maximum.
On the tied input `[A, B, A, B]` the result follows the iteration order of
`set(emotion_votes)`: both `[B, A]` and `[A, B]` are valid enumerations of the
distinct votes, the first makes `aggregate` return `B`, the second `A` — so
the output is not determined by the vote sequence, contradicting the claimed
deterministic first-encountered tie-break. -/
theorem aggregate_tie_follows_set_order :
    (["B", "A"] : List String).Perm (["A", "B", "A", "B"] : List String).dedup ∧
    (["A", "B"] : List String).Perm (["A", "B", "A", "B"] : List String).dedup ∧
    aggregate ["A", "B", "A", "B"] ["B", "A"] = some "B" ∧
    aggregate ["A", "B", "A", "B"] ["A", "B"] = some "A" ∧
    aggregate ["A", "B", "A", "B"] ["B", "A"] ≠
      aggregate ["A", "B", "A", "B"] ["A", "B"] :=
  ⟨by decide, by decide, by decide, by decide, by decide⟩

/-- C2: the sentiment-to-mood map sends polarity `> 0.3` to happy, `< -0.3`
to sad, everything else in `[-1, 1]` to neutral; both boundaries map to
neutral, and the map is total onto `{happy, sad, neutral}`. -/
theorem detect_mood_thresholds :
    ∀ p : ℚ, -1 ≤ p → p ≤ 1 →
      (3/10 < p → detect_mood p = "happy") ∧
      (p < -(3/10) → detect_mood p = "sad") ∧
      (-(3/10) ≤ p → p ≤ 3/10 → detect_mood p = "neutral") ∧
      detect_mood (3/10) = "neutral" ∧
      detect_mood (-(3/10)) = "neutral" ∧
      (detect_mood p = "happy" ∨ detect_mood p = "sad" ∨ detect_mood p = "neutral") := by
  intro p _ _
  refine ⟨?_, ?_, ?_, by norm_num [detect_mood], by norm_num [detect_mood], ?_⟩
  · intro h
    rw [detect_mood, if_pos h]
  · intro h
    rw [detect_mood, if_neg (by linarith), if_pos h]
  · intro h1 h2
    rw [detect_mood, if_neg (by linarith), if_neg (by linarith)]
  · rw [detect_mood]
    split_ifs <;> simp

/-- Witness for C2 at the concrete polarity 1/2. -/
theorem detect_mood_thresholds_witness : detect_mood (1/2 : ℚ) = "happy" :=
  (detect_mood_thresholds (1/2) (by norm_num) (by norm_num)).1 (by norm_num)

/-- C6: manual mood resolution trims and lowercases its input, succeeds with
the normalized string exactly when that string is one of the seven canonical
moods, and fails (re-prompt) otherwise; `"HAPPY "` resolves to `happy` and
`"excited"` is rejected. -/
theorem resolve_manual_spec :
    (∀ s : String,
      (resolve_manual s = some (pyLower (pyStrip s)) ↔
        pyLower (pyStrip s) ∈
          (["happy", "sad", "angry", "surprise", "neutral", "fear", "disgust"] : List String)) ∧
      (resolve_manual s = none ↔
        pyLower (pyStrip s) ∉
          (["happy", "sad", "angry", "surprise", "neutral", "fear", "disgust"] : List String))) ∧
    resolve_manual "HAPPY " = some "happy" ∧
    resolve_manual "excited" = none := by
  refine ⟨?_, by decide, by decide⟩
  intro s
  have hk : MOOD_FOLDERS.map Prod.fst =
      ["happy", "sad", "angry", "surprise", "neutral", "fear", "disgust"] := by decide
  by_cases h : pyLower (pyStrip s) ∈
      (["happy", "sad", "angry", "surprise", "neutral", "fear", "disgust"] : List String) <;>
    simp [resolve_manual, hk, h]

/-- C7: aggregation of an empty vote sequence yields `None`, and the webcam
branch of `main` then re-prompts — in particular it never proceeds with a
defaulted mood such as neutral. -/
theorem aggregate_empty_none :
    ∀ setOrder : List String,
      aggregate [] setOrder = none ∧
      webcam_step [] setOrder = .reprompt ∧
      ∀ m : String, webcam_step [] setOrder ≠ .proceed m := by
  intro so
  exact ⟨rfl, rfl, fun m h => WebcamStep.noConfusion h⟩

/-- C10: whenever device enumeration returns a non-empty list, remote
playback is started on the first device of the enumeration (the call carries
its id), and the outcome depends only on that first device. -/
theorem start_playback_first_device :
    ∀ (d : Device) (rest : List Device) (playlist_uri : String),
      start_playback_by_uri (d :: rest) playlist_uri = .ok ⟨d.id, playlist_uri⟩ ∧
      start_playback_by_uri (d :: rest) playlist_uri =
        start_playback_by_uri [d] playlist_uri := by
  intro d rest uri
  exact ⟨rfl, rfl⟩

/-- C3: once the streaming backend reports success, no further backend is
attempted — the outcome records the streaming playlist with no failure
reasons, and is independent of the local catalog and of the random pick
(the local player is never consulted). -/
theorem route_no_backend_after_success :
    ∀ (mood uri name : String) (start : String → StartOutcome)
      (d1 d2 : String → Option (List String)) (p1 p2 : Nat),
      start uri = .ok →
      route_spotify mood (.found uri name) start d1 p1 =
        ⟨some (.spotify uri), []⟩ ∧
      route_spotify mood (.found uri name) start d1 p1 =
        route_spotify mood (.found uri name) start d2 p2 := by
  intro mood uri name start d1 d2 p1 p2 h
  constructor <;> simp [route_spotify, h]

/-- Witness for C3 on a concrete request where streaming playback starts. -/
theorem route_no_backend_after_success_witness :
    route_spotify "happy" (.found "u" "n") (fun _ => .ok) (fun _ => none) 0 =
      ⟨some (.spotify "u"), []⟩ ∧
    route_spotify "happy" (.found "u" "n") (fun _ => .ok) (fun _ => none) 0 =
      route_spotify "happy" (.found "u" "n") (fun _ => .ok) (fun _ => some ["t.mp3"]) 3 :=
  route_no_backend_after_success "happy" "u" "n" (fun _ => .ok)
    (fun _ => none) (fun _ => some ["t.mp3"]) 0 3 rfl

/-- C4: when streaming raises and the local catalog entry for the mood is
empty, routing ends with nothing played and exactly the two per-backend
failure reasons, and (being a total function) does not crash. -/
theorem route_all_failed_two_reasons :
    ∀ (mood folder msg : String) (start : String → StartOutcome)
      (dirEntries : String → Option (List String)) (pick : Nat),
      (MOOD_FOLDERS.lookup mood).getD "" = folder →
      folder ≠ "" →
      list_music_files folder dirEntries = [] →
      route_spotify mood (.raised msg) start dirEntries pick =
        ⟨none, ["Spotify playback error: " ++ msg,
                "No music files found in " ++ folder ++
                  ". Please add mp3/ogg/wav files there."]⟩ := by
  intro mood folder msg start d pick hf hne hempty
  simp [route_spotify, play_random_for_mood, localToRoute, hf, hne, hempty]

/-- Witness for C4: known mood, raising search, empty catalog entry. -/
theorem route_all_failed_two_reasons_witness :
    route_spotify "happy" (.raised "boom") (fun _ => .ok) (fun _ => some []) 0 =
      ⟨none, ["Spotify playback error: " ++ "boom",
              "No music files found in " ++ "music/happy" ++
                ". Please add mp3/ogg/wav files there."]⟩ :=
  route_all_failed_two_reasons "happy" "music/happy" "boom" (fun _ => .ok)
    (fun _ => some []) 0 (by decide) (by decide) (by decide)

/-- C5: when the streaming search finds nothing and the local catalog entry
for the mood is non-empty, the router falls through to the local backend and
succeeds with a track drawn from that entry. -/
theorem route_fallthrough_local_success :
    ∀ (mood folder : String) (start : String → StartOutcome)
      (dirEntries : String → Option (List String)) (pick : Nat),
      (MOOD_FOLDERS.lookup mood).getD "" = folder →
      folder ≠ "" →
      list_music_files folder dirEntries ≠ [] →
      ∃ f, f ∈ list_music_files folder dirEntries ∧
        route_spotify mood .notFound start dirEntries pick =
          ⟨some (.localFile f),
           ["No Spotify playlist found for mood. Falling back to local playback."]⟩ := by
  intro mood folder start d pick hf hne hnon
  have hlen : 0 < (list_music_files folder d).length :=
    List.length_pos_iff_ne_nil.mpr hnon
  have hlt : pick % (list_music_files folder d).length <
      (list_music_files folder d).length := Nat.mod_lt _ hlen
  have hie : (list_music_files folder d).isEmpty = false := by
    simpa [List.isEmpty_iff] using hnon
  refine ⟨(list_music_files folder d).getD
    (pick % (list_music_files folder d).length) "", ?_, ?_⟩
  · rw [List.getD_eq_getElem (list_music_files folder d) "" hlt]
    exact List.getElem_mem hlt
  · simp [route_spotify, play_random_for_mood, localToRoute, hf, hne, hie]

/-- Witness for C5: known mood, empty search result, one catalog track. -/
theorem route_fallthrough_local_success_witness :
    ∃ f, f ∈ list_music_files "music/sad" (fun _ => some ["t.mp3"]) ∧
      route_spotify "sad" .notFound (fun _ => .ok) (fun _ => some ["t.mp3"]) 0 =
        ⟨some (.localFile f),
         ["No Spotify playlist found for mood. Falling back to local playback."]⟩ :=
  route_fallthrough_local_success "sad" "music/sad" (fun _ => .ok)
    (fun _ => some ["t.mp3"]) 0 (by decide) (by decide) (by decide)

/-- The running best of the Python `max` fold is one of the candidates. -/
theorem foldl_pyMax_mem (key : String → Nat) :
    ∀ (xs : List String) (x : String),
      xs.foldl (fun best y => if key y > key best then y else best) x ∈ x :: xs := by
  intro xs
  induction xs with
  | nil => intro x; simp
  | cons y ys ih =>
      intro x
      rw [List.foldl_cons]
      rcases List.mem_cons.mp (ih (if key y > key x then y else x)) with h | h
      · rw [h]
        split_ifs
        · exact List.mem_cons_of_mem _ (List.mem_cons_self _ _)
        · exact List.mem_cons_self _ _
      · exact List.mem_cons_of_mem _ (List.mem_cons_of_mem _ h)

/-- C8: on a non-empty vote sequence, `aggregate` returns a label occurring
in the votes (for any enumeration order of the distinct votes), and a
single-vote sequence returns that vote's label. -/
theorem aggregate_returns_member :
    ∀ (votes setOrder : List String), votes ≠ [] → setOrder.Perm votes.dedup →
      (∃ m, aggregate votes setOrder = some m ∧ m ∈ votes) ∧
      (∀ a, votes = [a] → aggregate votes setOrder = some a) := by
  intro votes so hne hperm
  constructor
  · have hso : so ≠ [] := by
      intro h
      subst h
      exact hne ((List.dedup_eq_nil votes).mp hperm.symm.eq_nil)
    obtain ⟨x, xs, rfl⟩ := List.exists_cons_of_ne_nil hso
    have hie : votes.isEmpty = false := by simpa [List.isEmpty_iff] using hne
    refine ⟨xs.foldl
      (fun best y => if votes.count y > votes.count best then y else best) x, ?_, ?_⟩
    · simp [aggregate, hie, pyMax]
    · have hmem := foldl_pyMax_mem (fun m => votes.count m) xs x
      exact List.mem_dedup.mp (hperm.subset hmem)
  · intro a ha
    subst ha
    have hso1 : so = [a] := List.perm_singleton.mp (by simpa using hperm)
    subst hso1
    rfl

/-- Witness for C8 on a one-vote sequence. -/
theorem aggregate_returns_member_witness :
    (∃ m, aggregate ["happy"] ["happy"] = some m ∧ m ∈ (["happy"] : List String)) ∧
    (∀ a, (["happy"] : List String) = [a] → aggregate ["happy"] ["happy"] = some a) :=
  aggregate_returns_member ["happy"] ["happy"] (by decide) (by decide)

/-- `pyExists` characterized by plain membership. -/
theorem pyExists_iff (fs : FS) (q : String) :
    pyExists fs q = true ↔ q ∈ fs.dirs ∨ ∃ f ∈ fs.files, f.1 = q := by
  simp [pyExists, List.any_eq_true]

/-- Existence is preserved by creating a directory. -/
theorem pyExists_addDir (fs : FS) (p q : String) (h : pyExists fs q = true) :
    pyExists (addDir fs p) q = true := by
  rw [pyExists_iff] at h
  rw [pyExists_iff]
  unfold addDir
  split_ifs with hc
  · exact h
  · rcases h with h | h
    · exact Or.inl (List.mem_append_left _ h)
    · exact Or.inr h

/-- A directory exists right after it is created. -/
theorem pyExists_addDir_self (fs : FS) (p : String) :
    pyExists (addDir fs p) p = true := by
  rw [pyExists_iff]
  unfold addDir
  split_ifs with hc
  · exact Or.inl (by simpa using hc)
  · exact Or.inl (List.mem_append_right _ (by simp))

/-- Existence is preserved by creating any sequence of directories. -/
theorem pyExists_foldl_addDir (l : List String) (fs : FS) (q : String)
    (h : pyExists fs q = true) : pyExists (l.foldl addDir fs) q = true := by
  induction l generalizing fs with
  | nil => exact h
  | cons x xs ih => exact ih (addDir fs x) (pyExists_addDir fs x q h)

/-- Every directory in the created list exists after the fold. -/
theorem pyExists_foldl_addDir_mem (l : List String) (fs : FS) (q : String)
    (h : q ∈ l) : pyExists (l.foldl addDir fs) q = true := by
  induction l generalizing fs with
  | nil => cases h
  | cons x xs ih =>
      rw [List.foldl_cons]
      rcases List.mem_cons.mp h with rfl | hx
      · exact pyExists_foldl_addDir xs (addDir fs q) q (pyExists_addDir_self fs q)
      · exact ih (addDir fs x) hx

/-- Existence is preserved by writing a file (the only entry removed is
overwritten at the same path). -/
theorem pyExists_write_text (fs : FS) (p text q : String)
    (h : pyExists fs q = true) : pyExists (write_text fs p text) q = true := by
  rw [pyExists_iff] at h
  rw [pyExists_iff]
  unfold write_text
  rcases h with h | ⟨f, hf, hfq⟩
  · exact Or.inl h
  · by_cases hq : q = p
    · exact Or.inr ⟨(p, text), List.mem_append_right _ (by simp), by simp [hq]⟩
    · exact Or.inr ⟨f, List.mem_append_left _
        (List.mem_filter.mpr ⟨hf, by simp [hfq, hq]⟩), hfq⟩

/-- Existence is preserved by one bootstrap step. -/
theorem pyExists_ensure_step (fs : FS) (pr : String × String) (q : String)
    (h : pyExists fs q = true) : pyExists (ensure_step fs pr) q = true := by
  unfold ensure_step
  split_ifs with hc
  · exact h
  · exact pyExists_write_text _ _ _ _ (pyExists_foldl_addDir _ _ _ h)

/-- After one bootstrap step, the step's own folder exists. -/
theorem pyExists_ensure_step_self (fs : FS) (pr : String × String) :
    pyExists (ensure_step fs pr) pr.2 = true := by
  unfold ensure_step
  split_ifs with hc
  · exact hc
  · exact pyExists_write_text _ _ _ _
      (pyExists_foldl_addDir_mem _ _ _ (List.mem_append_right _ (by simp)))

/-- Existence is preserved by the whole bootstrap loop. -/
theorem pyExists_foldl_ensure (l : List (String × String)) (fs : FS) (q : String)
    (h : pyExists fs q = true) : pyExists (l.foldl ensure_step fs) q = true := by
  induction l generalizing fs with
  | nil => exact h
  | cons pr rest ih => exact ih (ensure_step fs pr) (pyExists_ensure_step fs pr q h)

/-- After the bootstrap loop, every folder in the processed list exists. -/
theorem pyExists_foldl_ensure_mem (l : List (String × String)) (fs : FS) :
    ∀ pr ∈ l, pyExists (l.foldl ensure_step fs) pr.2 = true := by
  induction l generalizing fs with
  | nil => intro pr h; cases h
  | cons x rest ih =>
      intro pr hpr
      rw [List.foldl_cons]
      rcases List.mem_cons.mp hpr with rfl | h
      · exact pyExists_foldl_ensure rest (ensure_step fs pr) pr.2
          (pyExists_ensure_step_self fs pr)
      · exact ih (ensure_step fs x) pr h

/-- The bootstrap loop does nothing when every folder already exists. -/
theorem foldl_ensure_noop (l : List (String × String)) (fs : FS)
    (h : ∀ pr ∈ l, pyExists fs pr.2 = true) : l.foldl ensure_step fs = fs := by
  induction l with
  | nil => rfl
  | cons pr rest ih =>
      have h1 : ensure_step fs pr = fs := by
        unfold ensure_step
        rw [if_pos (h pr (List.mem_cons_self _ _))]
      rw [List.foldl_cons, h1]
      exact ih fun q hq => h q (List.mem_cons_of_mem _ hq)

/-- Existence is preserved when files appear on disk. -/
theorem pyExists_add_files (fs : FS) (extra : List (String × String)) (q : String)
    (h : pyExists fs q = true) : pyExists (add_files fs extra) q = true := by
  rw [pyExists_iff] at h
  rw [pyExists_iff]
  unfold add_files
  rcases h with h | ⟨f, hf, hfq⟩
  · exact Or.inl h
  · exact Or.inr ⟨f, List.mem_append_left _ hf, hfq⟩

/-- C9: folder bootstrap is idempotent — a second run of
`ensure_music_folders`, on any state produced by a first run (even after
files were added since), changes nothing: same directories (hence no
duplication) and all file contents untouched. -/
theorem ensure_music_folders_idempotent :
    ∀ (fs : FS) (extra : List (String × String)),
      ensure_music_folders (add_files (ensure_music_folders fs) extra) =
        add_files (ensure_music_folders fs) extra := by
  intro fs extra
  show MOOD_FOLDERS.foldl ensure_step (add_files (ensure_music_folders fs) extra) =
    add_files (ensure_music_folders fs) extra
  apply foldl_ensure_noop
  intro pr hpr
  exact pyExists_add_files _ extra pr.2
    (pyExists_foldl_ensure_mem MOOD_FOLDERS fs pr hpr)

end MoodPlayer
